import Mathlib

/-!
Shallow embedding of the `base_pid` floating-point PID controller from
`src/pid.hpp` / `src/pid.cpp`.

Modelling conventions:
* C++ `float` arithmetic is idealized as exact rational arithmetic (`ℚ`);
  every claim treated here is about branch structure, clamping and state
  updates, which are stable under this idealization.
* `uint64_t` values are naturals; the unsigned subtraction
  `tstamp - lts` is modelled by `sub64`, reducing modulo `2 ^ 64`.
* The four external pointer bindings (`pv`, `sp`, `tb`, `co`) are modelled
  per call by a `Bindings` value: presence of each pointer together with
  the value read through it at call time.  `co` only needs a presence flag,
  since the value written through it is returned by `run_pid`.
* The scratch members `tmp_dt`, `tmp_err`, `d_iterm` are left
  uninitialized by all three constructors in the source; the constructor
  embeddings therefore take their initial values as extra parameters.
-/

/-- Exact value of the C constant `__FLT_MAX__`, i.e. `2 ^ 128 - 2 ^ 104`. -/
def FLT_MAX : ℚ := 340282346638528859811704183484516925440

/-- `#define DT_MIN_PID 10` (minimal PID time slice in microseconds). -/
def DT_MIN_PID : ℕ := 10

/-- The state of a `base_pid` object: every non-pointer data member of the
class, in declaration order (`src/pid.hpp`). -/
structure BasePid where
  tmp_dt : ℕ      -- scratch: elapsed time of the current call
  tmp_co : ℚ      -- the last calculated Control Output
  tmp_err : ℚ     -- scratch: error of the current call
  d_iterm : ℚ     -- scratch: integral delta of the current call
  kp : ℚ          -- Proportional Gain
  ki : ℚ          -- Integral Gain (stored pre-scaled by 1.0e-6)
  kd : ℚ          -- Differential Gain (stored pre-scaled by 1.0e+6)
  db : ℚ          -- Deadband
  pvll : ℚ        -- Process variable low limit
  pvhl : ℚ        -- Process variable high limit
  spll : ℚ        -- Setpoint low limit
  sphl : ℚ        -- Setpoint high limit
  coll : ℚ        -- Control output low limit
  cohl : ℚ        -- Control output high limit
  dtmin : ℕ       -- Minimum time interval between adjacent calculations
  db_on : Bool    -- Deadband On/Off
  man_on : Bool   -- Manual Mode On/Off
  lts : ℕ         -- The last calculation timestamp
  lman_on : Bool  -- The last run Manual Mode On/Off
  Iterm : ℚ       -- Integral term
  lerr : ℚ        -- The last calculated Error (sp - pv)
  deriving DecidableEq

/-- The external pointer bindings, as observed during one `run_pid` call:
`none` models a null pointer, `some v` a valid pointer whose cell holds
`v`; for the output pointer `co` only validity matters. -/
structure Bindings where
  pv : Option ℚ
  sp : Option ℚ
  tb : Option ℚ
  co : Bool
  deriving DecidableEq

/-- The clamping ternary used twice in `run_pid`:
`(x < lo) ? lo : (x > hi) ? hi : x`. -/
def clamp (lo hi x : ℚ) : ℚ :=
  if x < lo then lo else if x > hi then hi else x

/-- `uint64_t` subtraction `a - b` with unsigned wraparound. -/
def sub64 (a b : ℕ) : ℕ :=
  (a % 2 ^ 64 + (2 ^ 64 - b % 2 ^ 64)) % 2 ^ 64

/-- The default constructor `base_pid::base_pid()` (pointer members are
modelled in `Bindings`, not here; the three uninitialized scratch members
are taken as parameters). -/
def base_pid_default (tmp_dt0 : ℕ) (tmp_err0 d_iterm0 : ℚ) : BasePid :=
  { tmp_dt := tmp_dt0, tmp_co := 0, tmp_err := tmp_err0, d_iterm := d_iterm0,
    kp := 0, ki := 0, kd := 0, db := 0,
    pvll := -FLT_MAX, pvhl := FLT_MAX,
    spll := -FLT_MAX, sphl := FLT_MAX,
    coll := -FLT_MAX, cohl := FLT_MAX,
    dtmin := DT_MIN_PID, db_on := false, man_on := true,
    lts := 0, lman_on := true, Iterm := 0, lerr := 0 }

/-- The simplified constructor `base_pid::base_pid(ppv, psp, pco, ptie)`:
identical to the default constructor on all non-pointer members. -/
def base_pid_min (tmp_dt0 : ℕ) (tmp_err0 d_iterm0 : ℚ) : BasePid :=
  { tmp_dt := tmp_dt0, tmp_co := 0, tmp_err := tmp_err0, d_iterm := d_iterm0,
    kp := 0, ki := 0, kd := 0, db := 0,
    pvll := -FLT_MAX, pvhl := FLT_MAX,
    spll := -FLT_MAX, sphl := FLT_MAX,
    coll := -FLT_MAX, cohl := FLT_MAX,
    dtmin := DT_MIN_PID, db_on := false, man_on := true,
    lts := 0, lman_on := true, Iterm := 0, lerr := 0 }

/-- The full constructor: gains `ki`/`kd` are rescaled at construction
(`kiv * 1.0e-6`, `kdv * 1.0e+6`). -/
def base_pid_full (kpv kiv kdv dbv pvllv pvhlv spllv sphlv collv cohlv : ℚ)
    (db_onv man_onv : Bool) (dtminv : ℕ)
    (tmp_dt0 : ℕ) (tmp_err0 d_iterm0 : ℚ) : BasePid :=
  { tmp_dt := tmp_dt0, tmp_co := 0, tmp_err := tmp_err0, d_iterm := d_iterm0,
    kp := kpv, ki := kiv * (1 / 1000000), kd := kdv * 1000000, db := dbv,
    pvll := pvllv, pvhl := pvhlv,
    spll := spllv, sphl := sphlv,
    coll := collv, cohl := cohlv,
    dtmin := dtminv, db_on := db_onv, man_on := man_onv,
    lts := 0, lman_on := true, Iterm := 0, lerr := 0 }

/-- `base_pid::set_gain_param`.  The range check is transcribed literally
from the source, including the fact that the narrowed upper bound on the
last line is compared against `kpv` (not `kdv`). -/
def set_gain_param (s : BasePid) (kpv kiv kdv : ℚ) : Int × BasePid :=
  if kpv < -FLT_MAX ∨ kpv > FLT_MAX ∨
     kiv < -FLT_MAX ∨ kiv > FLT_MAX ∨
     kdv < -(FLT_MAX * (1 / 1000000)) ∨ kpv > FLT_MAX * (1 / 1000000) then
    (-1, s)
  else
    (0, { s with kp := kpv, ki := kiv * (1 / 1000000), kd := kdv * 1000000 })

/-- `base_pid::run_pid(tstamp)`.  Returns the `int` result, the updated
object state, and the value written through the `co` binding (`none` when
nothing is written). -/
def run_pid (s : BasePid) (b : Bindings) (tstamp : ℕ) : Int × BasePid × Option ℚ :=
  -- Check process variables
  match b.pv, b.sp, b.co with
  | some pvv, some spv, true =>
    -- Check dtmin param (the statement `dtmin == 1;` in the source is a
    -- no-op comparison, so nothing is mutated on this path)
    if s.dtmin = 0 then (-1, s, none)
    else
      -- Only update CO if no minimal time slice elapsed
      let s1 : BasePid := { s with tmp_dt := sub64 tstamp s.lts }
      if s1.tmp_dt < s1.dtmin then (0, s1, some s1.tmp_co)
      else
        -- Update lts
        let s2 : BasePid := { s1 with lts := tstamp }
        -- Tieback drives CO if Manual mode is enabled, CO limits still apply
        if s2.man_on = true then
          let s3 : BasePid :=
            { s2 with tmp_co := clamp s2.coll s2.cohl (b.tb.getD 0), lman_on := true }
          (0, s3, some s3.tmp_co)
        else
          -- Run bumpless if we come from Manual mode
          let s3 : BasePid :=
            if s2.lman_on = true then { s2 with lman_on := false, Iterm := s2.tmp_co } else s2
          let s4 : BasePid := { s3 with tmp_err := spv - pvv }
          -- Skip further calculations if Deadband is Enabled and we are in
          -- the Deadband region
          if s4.db_on = true ∧ s4.tmp_err < s4.db then
            (0, { s4 with lerr := s4.tmp_err }, some s4.tmp_co)
          else
            -- Add Proportional kick
            let s5 : BasePid := { s4 with tmp_co := s4.kp * s4.tmp_err }
            -- Add Dterm and update lerr
            let s6 : BasePid :=
              { s5 with
                tmp_co := s5.tmp_co + s5.kd * (s5.tmp_err - s5.lerr) / (s5.tmp_dt : ℚ),
                lerr := s5.tmp_err }
            -- Process Iterm
            let s7 : BasePid :=
              if s6.ki = 0 then { s6 with Iterm := 0 }
              else
                let s6a : BasePid := { s6 with d_iterm := s6.ki * s6.tmp_err * (s6.tmp_dt : ℚ) }
                let s6b : BasePid := { s6a with tmp_co := s6a.tmp_co + s6a.Iterm }
                if ¬ ((s6b.tmp_co > s6b.cohl ∧ s6b.d_iterm > 0) ∨
                      (s6b.tmp_co < s6b.coll ∧ s6b.d_iterm < 0)) then
                  { s6b with tmp_co := s6b.tmp_co + s6b.d_iterm,
                             Iterm := s6b.Iterm + s6b.d_iterm }
                else s6b
            -- Check results against limits and set Control output
            let s8 : BasePid := { s7 with tmp_co := clamp s7.coll s7.cohl s7.tmp_co }
            (0, s8, some s8.tmp_co)
  | _, _, _ => (-1, s, none)

/-- Division on `ℚ` that flags a zero divisor instead of silently
returning `0` (used to express absence of division by zero). -/
def divq (a b : ℚ) : Option ℚ :=
  if b = 0 then none else some (a / b)

/-- `run_pid` with the single division of the algorithm replaced by the
checked division `divq`: a result of `none` would mean the source divides
by zero on that input. -/
def run_pid_checked (s : BasePid) (b : Bindings) (tstamp : ℕ) :
    Option (Int × BasePid × Option ℚ) :=
  match b.pv, b.sp, b.co with
  | some pvv, some spv, true =>
    if s.dtmin = 0 then some (-1, s, none)
    else
      let s1 : BasePid := { s with tmp_dt := sub64 tstamp s.lts }
      if s1.tmp_dt < s1.dtmin then some (0, s1, some s1.tmp_co)
      else
        let s2 : BasePid := { s1 with lts := tstamp }
        if s2.man_on = true then
          let s3 : BasePid :=
            { s2 with tmp_co := clamp s2.coll s2.cohl (b.tb.getD 0), lman_on := true }
          some (0, s3, some s3.tmp_co)
        else
          let s3 : BasePid :=
            if s2.lman_on = true then { s2 with lman_on := false, Iterm := s2.tmp_co } else s2
          let s4 : BasePid := { s3 with tmp_err := spv - pvv }
          if s4.db_on = true ∧ s4.tmp_err < s4.db then
            some (0, { s4 with lerr := s4.tmp_err }, some s4.tmp_co)
          else
            let s5 : BasePid := { s4 with tmp_co := s4.kp * s4.tmp_err }
            match divq (s5.kd * (s5.tmp_err - s5.lerr)) (s5.tmp_dt : ℚ) with
            | none => none
            | some dv =>
              let s6 : BasePid := { s5 with tmp_co := s5.tmp_co + dv, lerr := s5.tmp_err }
              let s7 : BasePid :=
                if s6.ki = 0 then { s6 with Iterm := 0 }
                else
                  let s6a : BasePid := { s6 with d_iterm := s6.ki * s6.tmp_err * (s6.tmp_dt : ℚ) }
                  let s6b : BasePid := { s6a with tmp_co := s6a.tmp_co + s6a.Iterm }
                  if ¬ ((s6b.tmp_co > s6b.cohl ∧ s6b.d_iterm > 0) ∨
                        (s6b.tmp_co < s6b.coll ∧ s6b.d_iterm < 0)) then
                    { s6b with tmp_co := s6b.tmp_co + s6b.d_iterm,
                               Iterm := s6b.Iterm + s6b.d_iterm }
                  else s6b
              let s8 : BasePid := { s7 with tmp_co := clamp s7.coll s7.cohl s7.tmp_co }
              some (0, s8, some s8.tmp_co)
  | _, _, _ => some (-1, s, none)

/-- The error `sp - pv` of one evaluation. -/
def pid_err (pvv spv : ℚ) : ℚ := spv - pvv

/-- The integral term in effect after the bumpless-transfer step: seeded
from the last output when the previous effective cycle was manual. -/
def pid_i0 (s : BasePid) : ℚ :=
  if s.lman_on = true then s.tmp_co else s.Iterm

/-- The proportional plus derivative contribution of one full evaluation
(the running output total before the integral term is processed). -/
def pid_base (s : BasePid) (pvv spv : ℚ) (dt : ℕ) : ℚ :=
  s.kp * pid_err pvv spv + s.kd * (pid_err pvv spv - s.lerr) / (dt : ℚ)

/-- The candidate integral delta `ki * error * elapsed`. -/
def pid_delta (s : BasePid) (pvv spv : ℚ) (dt : ℕ) : ℚ :=
  s.ki * pid_err pvv spv * (dt : ℚ)

/-- The anti-windup gate condition: the running total (P + D plus the
existing integral term) is already saturated and the delta points further
in the saturated direction. -/
def windup_blocked (s : BasePid) (pvv spv : ℚ) (dt : ℕ) : Prop :=
  (pid_base s pvv spv dt + pid_i0 s > s.cohl ∧ pid_delta s pvv spv dt > 0) ∨
  (pid_base s pvv spv dt + pid_i0 s < s.coll ∧ pid_delta s pvv spv dt < 0)

instance (s : BasePid) (pvv spv : ℚ) (dt : ℕ) :
    Decidable (windup_blocked s pvv spv dt) := by
  unfold windup_blocked; infer_instance

/-- The stored integral term after one full evaluation, as the spec
describes it: reset when `ki = 0`, frozen when anti-windup blocks the
delta, otherwise advanced by the delta. -/
def iterm_upd (s : BasePid) (pvv spv : ℚ) (dt : ℕ) : ℚ :=
  if s.ki = 0 then 0
  else if windup_blocked s pvv spv dt then pid_i0 s
  else pid_i0 s + pid_delta s pvv spv dt

/-- The running output total of one full evaluation before the final
clamp, as the spec describes it. -/
def co_total (s : BasePid) (pvv spv : ℚ) (dt : ℕ) : ℚ :=
  if s.ki = 0 then pid_base s pvv spv dt
  else if windup_blocked s pvv spv dt then pid_base s pvv spv dt + pid_i0 s
  else pid_base s pvv spv dt + pid_i0 s + pid_delta s pvv spv dt

/-- The full controller state after one complete (non-manual,
non-rate-limited, non-deadband-gated) evaluation at timestamp `t`. -/
def full_state (s : BasePid) (pvv spv : ℚ) (t : ℕ) : BasePid :=
  { s with
    tmp_dt := sub64 t s.lts,
    lts := t,
    lman_on := false,
    tmp_err := pid_err pvv spv,
    lerr := pid_err pvv spv,
    d_iterm := if s.ki = 0 then s.d_iterm else pid_delta s pvv spv (sub64 t s.lts),
    Iterm := iterm_upd s pvv spv (sub64 t s.lts),
    tmp_co := clamp s.coll s.cohl (co_total s pvv spv (sub64 t s.lts)) }

/-- Example controller: full constructor with output limits `[5, 10]`,
manual mode on, default minimal time slice. -/
def exPid : BasePid :=
  base_pid_full 0 0 0 0 (-1000) 1000 (-1000) 1000 5 10 false true 10 0 0 0

/-- Example controller: full constructor with `kp = -100`, external
`ki = 10 ^ 6` (internal `ki = 1`), output limits `[-10, 10]`, automatic
mode, minimal time slice `1`. -/
def exPid2 : BasePid :=
  base_pid_full (-100) 1000000 0 0 (-1000) 1000 (-1000) 1000 (-10) 10 false false 1 0 0 0

/-- Example controller: deadband `5` enabled, automatic mode, output
limits `[-10, 10]`. -/
def exPid3 : BasePid :=
  base_pid_full 1 1 1 5 (-1000) 1000 (-1000) 1000 (-10) 10 true false 1 0 0 0

/-! ### Path lemmas for `run_pid` -/

theorem clamp_mem (lo hi x : ℚ) (h : lo ≤ hi) :
    lo ≤ clamp lo hi x ∧ clamp lo hi x ≤ hi := by
  unfold clamp
  split_ifs with h1 h2 <;> constructor <;> linarith

theorem run_pid_fail (s : BasePid) (b : Bindings) (t : ℕ)
    (h : b.pv = none ∨ b.sp = none ∨ b.co = false ∨ s.dtmin = 0) :
    run_pid s b t = (-1, s, none) := by
  obtain ⟨opv, osp, otb, oco⟩ := b
  rcases opv with _ | pvv
  · rfl
  rcases osp with _ | spv
  · rfl
  cases oco
  · rfl
  · have hd : s.dtmin = 0 := by simpa using h
    simp [run_pid, hd]

theorem run_pid_rate (s : BasePid) (pvv spv : ℚ) (tbv : Option ℚ) (t : ℕ)
    (hdt0 : s.dtmin ≠ 0) (h : sub64 t s.lts < s.dtmin) :
    run_pid s ⟨some pvv, some spv, tbv, true⟩ t =
      (0, { s with tmp_dt := sub64 t s.lts }, some s.tmp_co) := by
  obtain ⟨td, tc, te, di, kp, ki, kd, db, pl, ph, sl, sh, cl, ch, dm, dbo, mo, lt, lmo, it, le⟩ := s
  simp_all [run_pid]

theorem run_pid_manual (s : BasePid) (pvv spv : ℚ) (tbv : Option ℚ) (t : ℕ)
    (hdt0 : s.dtmin ≠ 0) (hdt : ¬ sub64 t s.lts < s.dtmin) (hman : s.man_on = true) :
    run_pid s ⟨some pvv, some spv, tbv, true⟩ t =
      (0, { s with tmp_dt := sub64 t s.lts, lts := t, lman_on := true,
                   tmp_co := clamp s.coll s.cohl (tbv.getD 0) },
       some (clamp s.coll s.cohl (tbv.getD 0))) := by
  obtain ⟨td, tc, te, di, kp, ki, kd, db, pl, ph, sl, sh, cl, ch, dm, dbo, mo, lt, lmo, it, le⟩ := s
  simp_all [run_pid]

theorem run_pid_db (s : BasePid) (pvv spv : ℚ) (tbv : Option ℚ) (t : ℕ)
    (hdt0 : s.dtmin ≠ 0) (hdt : ¬ sub64 t s.lts < s.dtmin)
    (hman : s.man_on = false) (hdb : s.db_on = true ∧ spv - pvv < s.db) :
    run_pid s ⟨some pvv, some spv, tbv, true⟩ t =
      (0, { s with tmp_dt := sub64 t s.lts, lts := t, lman_on := false,
                   Iterm := pid_i0 s, tmp_err := spv - pvv, lerr := spv - pvv },
       some s.tmp_co) := by
  obtain ⟨td, tc, te, di, kp, ki, kd, db, pl, ph, sl, sh, cl, ch, dm, dbo, mo, lt, lmo, it, le⟩ := s
  obtain ⟨hdb1, hdb2⟩ := hdb
  cases lmo <;> simp_all [run_pid, pid_i0]

set_option maxHeartbeats 1000000 in
theorem run_pid_full_eval (s : BasePid) (pvv spv : ℚ) (tbv : Option ℚ) (t : ℕ)
    (hdt0 : s.dtmin ≠ 0) (hdt : ¬ sub64 t s.lts < s.dtmin)
    (hman : s.man_on = false)
    (hdb : ¬ (s.db_on = true ∧ spv - pvv < s.db)) :
    run_pid s ⟨some pvv, some spv, tbv, true⟩ t =
      (0, full_state s pvv spv t,
       some (clamp s.coll s.cohl (co_total s pvv spv (sub64 t s.lts)))) := by
  obtain ⟨td, tc, te, di, kp, ki, kd, db, pl, ph, sl, sh, cl, ch, dm, dbo, mo, lt, lmo, it, le⟩ := s
  simp only at hman hdt0 hdt hdb
  subst hman
  cases lmo <;>
  · dsimp only [run_pid, full_state, co_total, iterm_upd, windup_blocked, pid_i0,
      pid_base, pid_delta, pid_err]
    rw [if_neg hdt0, if_neg hdt]
    simp only [Bool.false_eq_true, if_false, if_true, Bool.true_eq_false]
    rw [if_neg hdb]
    split_ifs <;> rfl

set_option maxHeartbeats 1000000 in
theorem run_pid_bumpless_eq (s : BasePid) (pvv spv : ℚ) (tbv : Option ℚ) (t : ℕ)
    (hdt0 : s.dtmin ≠ 0) (hdt : ¬ sub64 t s.lts < s.dtmin)
    (hman : s.man_on = false) (hlman : s.lman_on = true) :
    run_pid s ⟨some pvv, some spv, tbv, true⟩ t =
      run_pid { s with lman_on := false, Iterm := s.tmp_co }
        ⟨some pvv, some spv, tbv, true⟩ t := by
  obtain ⟨td, tc, te, di, kp, ki, kd, db, pl, ph, sl, sh, cl, ch, dm, dbo, mo, lt, lmo, it, le⟩ := s
  simp only at hman hlman hdt0 hdt
  subst hman
  subst hlman
  dsimp only [run_pid]
  rw [if_neg hdt0, if_neg hdt]
  simp only [Bool.false_eq_true, if_false, if_true, Bool.true_eq_false]
  split_ifs <;> rfl

theorem run_pid_succ (s : BasePid) (pvv spv : ℚ) (tbv : Option ℚ) (t : ℕ)
    (hdt0 : s.dtmin ≠ 0) :
    (run_pid s ⟨some pvv, some spv, tbv, true⟩ t).1 = 0 := by
  by_cases hrate : sub64 t s.lts < s.dtmin
  · rw [run_pid_rate s pvv spv tbv t hdt0 hrate]
  · by_cases hman : s.man_on = true
    · rw [run_pid_manual s pvv spv tbv t hdt0 hrate hman]
    · have hman2 : s.man_on = false := by
        revert hman; cases s.man_on <;> simp
      by_cases hdb : s.db_on = true ∧ spv - pvv < s.db
      · rw [run_pid_db s pvv spv tbv t hdt0 hrate hman2 hdb]
      · rw [run_pid_full_eval s pvv spv tbv t hdt0 hrate hman2 hdb]

/-! ### Claim theorems -/

/-- Claim C6 (confirmed): `run_pid(tstamp)` returns failure (-1) if and
only if the `pv`, `sp` or `co` binding is null or the stored minimum
interval `dtmin` is 0; on every failing call no controller state is
mutated and nothing is written through the output binding; every other
call returns success (0). -/
theorem run_pid_failure_iff (s : BasePid) (b : Bindings) (t : ℕ) :
    ((run_pid s b t).1 = -1 ↔
      b.pv = none ∨ b.sp = none ∨ b.co = false ∨ s.dtmin = 0) ∧
    ((b.pv = none ∨ b.sp = none ∨ b.co = false ∨ s.dtmin = 0) →
      run_pid s b t = (-1, s, none)) ∧
    (¬ (b.pv = none ∨ b.sp = none ∨ b.co = false ∨ s.dtmin = 0) →
      (run_pid s b t).1 = 0) := by
  by_cases h : b.pv = none ∨ b.sp = none ∨ b.co = false ∨ s.dtmin = 0
  · refine ⟨⟨fun _ => h, fun _ => ?_⟩, fun _ => run_pid_fail s b t h,
      fun hc => absurd h hc⟩
    rw [run_pid_fail s b t h]
  · obtain ⟨opv, osp, otb, oco⟩ := b
    simp only [not_or] at h
    obtain ⟨h1, h2, h3, h4⟩ := h
    rcases opv with _ | pvv
    · exact absurd rfl h1
    rcases osp with _ | spv
    · exact absurd rfl h2
    cases oco
    · exact absurd rfl h3
    · have h0 := run_pid_succ s pvv spv otb t h4
      refine ⟨⟨fun hc => ?_, fun hc => ?_⟩, fun hc => ?_, fun _ => h0⟩
      · rw [h0] at hc
        exact absurd hc (by decide)
      · exact absurd hc (by simp [h4])
      · exact absurd hc (by simp [h4])

/-- Witness for C6: a call with all bindings null fails, mutates nothing
and writes nothing. -/
theorem run_pid_failure_iff_witness :
    run_pid exPid ⟨none, none, none, false⟩ 0 = (-1, exPid, none) :=
  (run_pid_failure_iff exPid ⟨none, none, none, false⟩ 0).2.1 (Or.inl rfl)

/-- Claim C8 (confirmed): if the elapsed time (unsigned subtraction) is
below the stored minimum interval, `run_pid` writes the previously
computed output unchanged, returns success and leaves `lts` and all
control-law state unchanged (only the scratch member `tmp_dt` is
written); hence two such evaluations replay the identical output. -/
theorem pid_rate_limit_replay (s : BasePid) (pvv spv pvv2 spv2 : ℚ)
    (tbv tbv2 : Option ℚ) (t1 t2 : ℕ)
    (hdt0 : s.dtmin ≠ 0)
    (h1 : sub64 t1 s.lts < s.dtmin) (h2 : sub64 t2 s.lts < s.dtmin) :
    run_pid s ⟨some pvv, some spv, tbv, true⟩ t1 =
      (0, { s with tmp_dt := sub64 t1 s.lts }, some s.tmp_co) ∧
    (run_pid (run_pid s ⟨some pvv, some spv, tbv, true⟩ t1).2.1
        ⟨some pvv2, some spv2, tbv2, true⟩ t2).2.2 = some s.tmp_co := by
  have e1 := run_pid_rate s pvv spv tbv t1 hdt0 h1
  refine ⟨e1, ?_⟩
  rw [e1]
  have e2 := run_pid_rate { s with tmp_dt := sub64 t1 s.lts } pvv2 spv2 tbv2 t2
    (by simpa using hdt0) (by simpa using h2)
  rw [e2]

/-- Witness for C8: on `exPid` (with `dtmin = 10`, `lts = 0`) two calls at
timestamps 5 and 7 both replay the stored output. -/
theorem pid_rate_limit_replay_witness :
    run_pid exPid ⟨some 1, some 2, none, true⟩ 5 =
      (0, { exPid with tmp_dt := sub64 5 exPid.lts }, some exPid.tmp_co) ∧
    (run_pid (run_pid exPid ⟨some 1, some 2, none, true⟩ 5).2.1
        ⟨some 3, some 4, none, true⟩ 7).2.2 = some exPid.tmp_co :=
  pid_rate_limit_replay exPid 1 2 3 4 none none 5 7
    (by decide) (by decide) (by decide)

/-- Claim C7 (confirmed): with deadband enabled and the signed error
`sp - pv` below the threshold, an effective automatic evaluation skips
the P/I/D computation: it stores the error as `lerr`, writes the previous
output `tmp_co` unchanged, returns success, and the deadband branch
itself leaves the integral term untouched (`Iterm` ends at its
post-bumpless value `pid_i0 s`). -/
theorem pid_deadband_gate (s : BasePid) (pvv spv : ℚ) (tbv : Option ℚ) (t : ℕ)
    (hdt0 : s.dtmin ≠ 0) (hdt : ¬ sub64 t s.lts < s.dtmin)
    (hman : s.man_on = false) (hdb : s.db_on = true ∧ spv - pvv < s.db) :
    run_pid s ⟨some pvv, some spv, tbv, true⟩ t =
      (0, { s with tmp_dt := sub64 t s.lts, lts := t, lman_on := false,
                   Iterm := pid_i0 s, tmp_err := spv - pvv, lerr := spv - pvv },
       some s.tmp_co) :=
  run_pid_db s pvv spv tbv t hdt0 hdt hman hdb

/-- Witness for C7: `exPid3` (deadband `5` enabled, automatic) at error
`1 - 0 = 1 < 5` replays its previous output `0` and stores the error. -/
theorem pid_deadband_gate_witness :
    run_pid exPid3 ⟨some 0, some 1, none, true⟩ 20 =
      (0, { exPid3 with tmp_dt := sub64 20 exPid3.lts, lts := 20, lman_on := false,
                        Iterm := pid_i0 exPid3, tmp_err := 1 - 0, lerr := 1 - 0 },
       some exPid3.tmp_co) :=
  pid_deadband_gate exPid3 0 1 none 20 (by decide) (by decide) (by decide)
    (by norm_num [exPid3, base_pid_full])

/-- Claim C5 (confirmed): an effective automatic evaluation whose previous
effective cycle was manual behaves exactly like the same evaluation run
from the state whose integral term was pre-seeded with the last output
`tmp_co` and whose manual-transition memory is cleared; afterwards the
manual-transition memory is cleared. -/
theorem pid_bumpless_transfer (s : BasePid) (pvv spv : ℚ) (tbv : Option ℚ) (t : ℕ)
    (hdt0 : s.dtmin ≠ 0) (hdt : ¬ sub64 t s.lts < s.dtmin)
    (hman : s.man_on = false) (hlman : s.lman_on = true) :
    run_pid s ⟨some pvv, some spv, tbv, true⟩ t =
      run_pid { s with lman_on := false, Iterm := s.tmp_co }
        ⟨some pvv, some spv, tbv, true⟩ t ∧
    (run_pid s ⟨some pvv, some spv, tbv, true⟩ t).2.1.lman_on = false := by
  refine ⟨run_pid_bumpless_eq s pvv spv tbv t hdt0 hdt hman hlman, ?_⟩
  by_cases hdb : s.db_on = true ∧ spv - pvv < s.db
  · rw [run_pid_db s pvv spv tbv t hdt0 hdt hman hdb]
  · rw [run_pid_full_eval s pvv spv tbv t hdt0 hdt hman hdb]
    rfl

/-- Witness for C5: `exPid2` was constructed with `lman_on = true`; its
first effective automatic evaluation equals the evaluation from the
seeded state. -/
theorem pid_bumpless_transfer_witness :
    run_pid exPid2 ⟨some 0, some 1, none, true⟩ 20 =
      run_pid { exPid2 with lman_on := false, Iterm := exPid2.tmp_co }
        ⟨some 0, some 1, none, true⟩ 20 ∧
    (run_pid exPid2 ⟨some 0, some 1, none, true⟩ 20).2.1.lman_on = false :=
  pid_bumpless_transfer exPid2 0 1 none 20
    (by decide) (by decide) (by decide) (by decide)

/-- Claim C4 (confirmed): in an effective automatic non-deadband-gated
evaluation, the stored integral term and the pre-clamp running output
total follow the spec description `iterm_upd` / `co_total`: `Iterm` is
reset to 0 when `ki = 0`; otherwise the existing (post-bumpless) integral
term is added to the running total and the delta `ki * error * elapsed`
is folded into both total and `Iterm` unless the anti-windup gate
`windup_blocked` holds, in which case the delta is discarded and `Iterm`
is unchanged. -/
theorem pid_integral_antiwindup (s : BasePid) (pvv spv : ℚ) (tbv : Option ℚ) (t : ℕ)
    (hdt0 : s.dtmin ≠ 0) (hdt : ¬ sub64 t s.lts < s.dtmin)
    (hman : s.man_on = false)
    (hdb : ¬ (s.db_on = true ∧ spv - pvv < s.db)) :
    (run_pid s ⟨some pvv, some spv, tbv, true⟩ t).2.1.Iterm =
      iterm_upd s pvv spv (sub64 t s.lts) ∧
    (run_pid s ⟨some pvv, some spv, tbv, true⟩ t).2.1.tmp_co =
      clamp s.coll s.cohl (co_total s pvv spv (sub64 t s.lts)) := by
  rw [run_pid_full_eval s pvv spv tbv t hdt0 hdt hman hdb]
  exact ⟨rfl, rfl⟩

/-- Witness for C4: a full evaluation of `exPid2` at timestamp 20. -/
theorem pid_integral_antiwindup_witness :
    (run_pid exPid2 ⟨some 0, some 1, none, true⟩ 20).2.1.Iterm =
      iterm_upd exPid2 0 1 (sub64 20 exPid2.lts) ∧
    (run_pid exPid2 ⟨some 0, some 1, none, true⟩ 20).2.1.tmp_co =
      clamp exPid2.coll exPid2.cohl (co_total exPid2 0 1 (sub64 20 exPid2.lts)) :=
  pid_integral_antiwindup exPid2 0 1 none 20
    (by decide) (by decide) (by decide) (by decide)

/-- Claim C1 as stated is false; this is the amended form: after a
successful `run_pid` call that performs the full automatic control-law
computation (not rate-limited, not manual, not deadband-gated), the
stored last computed output `tmp_co` lies within `[coll, cohl]` whenever
`coll ≤ cohl`.  The stored integral term is not so bounded, and replay
cycles do not re-clamp (see the counterexample). -/
theorem pid_full_eval_output_clamped (s : BasePid) (pvv spv : ℚ) (tbv : Option ℚ)
    (t : ℕ) (hlim : s.coll ≤ s.cohl)
    (hdt0 : s.dtmin ≠ 0) (hdt : ¬ sub64 t s.lts < s.dtmin)
    (hman : s.man_on = false)
    (hdb : ¬ (s.db_on = true ∧ spv - pvv < s.db)) :
    (run_pid s ⟨some pvv, some spv, tbv, true⟩ t).1 = 0 ∧
    s.coll ≤ (run_pid s ⟨some pvv, some spv, tbv, true⟩ t).2.1.tmp_co ∧
    (run_pid s ⟨some pvv, some spv, tbv, true⟩ t).2.1.tmp_co ≤ s.cohl := by
  rw [run_pid_full_eval s pvv spv tbv t hdt0 hdt hman hdb]
  have hc := clamp_mem s.coll s.cohl (co_total s pvv spv (sub64 t s.lts)) hlim
  exact ⟨rfl, hc.1, hc.2⟩

/-- Witness for the amended C1. -/
theorem pid_full_eval_output_clamped_witness :
    (run_pid exPid2 ⟨some 0, some 1, none, true⟩ 20).1 = 0 ∧
    exPid2.coll ≤ (run_pid exPid2 ⟨some 0, some 1, none, true⟩ 20).2.1.tmp_co ∧
    (run_pid exPid2 ⟨some 0, some 1, none, true⟩ 20).2.1.tmp_co ≤ exPid2.cohl :=
  pid_full_eval_output_clamped exPid2 0 1 none 20
    (by norm_num [exPid2, base_pid_full])
    (by decide) (by decide) (by decide) (by decide)

/-- Counterexample for C1 as stated.  Two successful calls on constructed
controllers with `coll ≤ cohl`: a rate-limited replay leaves the stored
output `0` below `coll = 5` (on `exPid`), and a full evaluation leaves
the stored integral term `20` above `cohl = 10` (on `exPid2`). -/
theorem pid_output_limits_invariant_cex :
    (exPid.coll ≤ exPid.cohl ∧
     (run_pid exPid ⟨some 0, some 0, none, true⟩ 5).1 = 0 ∧
     (run_pid exPid ⟨some 0, some 0, none, true⟩ 5).2.1.tmp_co < exPid.coll) ∧
    (exPid2.coll ≤ exPid2.cohl ∧
     (run_pid exPid2 ⟨some 0, some 1, none, true⟩ 20).1 = 0 ∧
     exPid2.cohl < (run_pid exPid2 ⟨some 0, some 1, none, true⟩ 20).2.1.Iterm) := by
  constructor
  · rw [run_pid_rate exPid 0 0 none 5 (by decide) (by decide)]
    refine ⟨by norm_num [exPid, base_pid_full], rfl, ?_⟩
    norm_num [exPid, base_pid_full]
  · rw [run_pid_full_eval exPid2 0 1 none 20 (by decide) (by decide) (by decide)
      (by decide)]
    refine ⟨by norm_num [exPid2, base_pid_full], rfl, ?_⟩
    norm_num [full_state, iterm_upd, windup_blocked, pid_i0, pid_base, pid_delta,
      pid_err, exPid2, base_pid_full, sub64]

/-- Claim C2 as stated is false; this is the amended form: provided the
stored last output already lies within the limits (as it does after any
manual or full evaluation, but not necessarily at construction), every
call that writes through the output binding writes a value within
`[coll, cohl]`, and the stored last output stays within the limits, so
the property is preserved across all later cycles. -/
theorem pid_written_output_in_limits (s : BasePid) (b : Bindings) (t : ℕ)
    (hlim : s.coll ≤ s.cohl) (hlo : s.coll ≤ s.tmp_co) (hhi : s.tmp_co ≤ s.cohl) :
    (∀ w, (run_pid s b t).2.2 = some w → s.coll ≤ w ∧ w ≤ s.cohl) ∧
    s.coll ≤ (run_pid s b t).2.1.tmp_co ∧
    (run_pid s b t).2.1.tmp_co ≤ s.cohl := by
  by_cases h : b.pv = none ∨ b.sp = none ∨ b.co = false ∨ s.dtmin = 0
  · rw [run_pid_fail s b t h]
    exact ⟨fun w hw => (by cases hw), hlo, hhi⟩
  · obtain ⟨opv, osp, otb, oco⟩ := b
    simp only [not_or] at h
    obtain ⟨h1, h2, h3, h4⟩ := h
    rcases opv with _ | pvv
    · exact absurd rfl h1
    rcases osp with _ | spv
    · exact absurd rfl h2
    cases oco
    · exact absurd rfl h3
    by_cases hrate : sub64 t s.lts < s.dtmin
    · rw [run_pid_rate s pvv spv otb t h4 hrate]
      refine ⟨fun w hw => ?_, hlo, hhi⟩
      have hw2 : s.tmp_co = w := by injection hw
      subst hw2
      exact ⟨hlo, hhi⟩
    · by_cases hman : s.man_on = true
      · rw [run_pid_manual s pvv spv otb t h4 hrate hman]
        have hc := clamp_mem s.coll s.cohl (otb.getD 0) hlim
        refine ⟨fun w hw => ?_, hc.1, hc.2⟩
        have hw2 : clamp s.coll s.cohl (otb.getD 0) = w := by injection hw
        subst hw2
        exact hc
      · have hman2 : s.man_on = false := by
          revert hman; cases s.man_on <;> simp
        by_cases hdb : s.db_on = true ∧ spv - pvv < s.db
        · rw [run_pid_db s pvv spv otb t h4 hrate hman2 hdb]
          refine ⟨fun w hw => ?_, hlo, hhi⟩
          have hw2 : s.tmp_co = w := by injection hw
          subst hw2
          exact ⟨hlo, hhi⟩
        · rw [run_pid_full_eval s pvv spv otb t h4 hrate hman2 hdb]
          have hc := clamp_mem s.coll s.cohl (co_total s pvv spv (sub64 t s.lts)) hlim
          refine ⟨fun w hw => ?_, hc.1, hc.2⟩
          have hw2 : clamp s.coll s.cohl (co_total s pvv spv (sub64 t s.lts)) = w := by
            injection hw
          subst hw2
          exact hc

/-- Witness for the amended C2. -/
theorem pid_written_output_in_limits_witness :
    exPid2.coll ≤ (run_pid exPid2 ⟨some 0, some 1, none, true⟩ 20).2.1.tmp_co ∧
    (run_pid exPid2 ⟨some 0, some 1, none, true⟩ 20).2.1.tmp_co ≤ exPid2.cohl :=
  (pid_written_output_in_limits exPid2 ⟨some 0, some 1, none, true⟩ 20
    (by norm_num [exPid2, base_pid_full]) (by norm_num [exPid2, base_pid_full])
    (by norm_num [exPid2, base_pid_full])).2

/-- Counterexample for C2 as stated: on the freshly constructed `exPid`
(output limits `[5, 10]`, stored output `0`), the first call is
rate-limited, succeeds and writes the out-of-range value `0` through the
output binding. -/
theorem pid_written_output_cex :
    exPid.coll ≤ exPid.cohl ∧
    (run_pid exPid ⟨some 0, some 0, none, true⟩ 3).1 = 0 ∧
    (run_pid exPid ⟨some 0, some 0, none, true⟩ 3).2.2 = some exPid.tmp_co ∧
    exPid.tmp_co < exPid.coll := by
  rw [run_pid_rate exPid 0 0 none 3 (by decide) (by decide)]
  exact ⟨by norm_num [exPid, base_pid_full], rfl, rfl,
    by norm_num [exPid, base_pid_full]⟩

/-- Claim C3 documents a bug in `set_gain_param`: the narrowed upper
bound `__FLT_MAX__ * 1e-6` is compared against `kpv` instead of `kdv`
(`src/pid.cpp:221`).  Consequently a `kd` input far above the narrowed
bound (here the full `FLT_MAX`) is accepted and stored multiplied by
`1e+6`, while a `kp` input of `10 ^ 35`, well inside the representable
float range, is rejected — both contradicting the claim. -/
theorem set_gain_param_kd_range_bug :
    (set_gain_param exPid 0 0 FLT_MAX).1 = 0 ∧
    (set_gain_param exPid 0 0 FLT_MAX).2.kd = FLT_MAX * 1000000 ∧
    FLT_MAX * (1 / 1000000) < FLT_MAX ∧
    (set_gain_param exPid (10 ^ 35) 0 0).1 = -1 ∧
    (10 : ℚ) ^ 35 ≤ FLT_MAX := by
  norm_num [set_gain_param, FLT_MAX]

/-- Claim C9 (confirmed): replacing the single division of the algorithm
(the derivative term `kd * (err - lerr) / tmp_dt`) by a division that
flags a zero divisor never produces the flag: whenever the derivative
computation is reached, `tmp_dt ≥ dtmin ≥ 1`, so no division by zero
occurs on any input. -/
theorem run_pid_no_div_by_zero (s : BasePid) (b : Bindings) (t : ℕ) :
    run_pid_checked s b t = some (run_pid s b t) := by
  obtain ⟨opv, osp, otb, oco⟩ := b
  rcases opv with _ | pvv
  · rfl
  rcases osp with _ | spv
  · rfl
  cases oco
  · rfl
  obtain ⟨td, tc, te, di, kp, ki, kd, db, pl, ph, sl, sh, cl, ch, dm, dbo, mo, lt, lmo, it,
    le⟩ := s
  by_cases hdt0 : dm = 0
  · subst hdt0
    rfl
  by_cases hrate : sub64 t lt < dm
  · dsimp only [run_pid, run_pid_checked]
    simp only [if_neg hdt0, if_pos hrate]
  have hne : ((sub64 t lt : ℕ) : ℚ) ≠ 0 := by
    have h0 : sub64 t lt ≠ 0 := by omega
    exact_mod_cast h0
  cases mo
  · cases lmo <;>
    · dsimp only [run_pid, run_pid_checked]
      simp only [if_neg hdt0, if_neg hrate, Bool.false_eq_true, if_false, if_true,
        Bool.true_eq_false]
      by_cases hdb : dbo = true ∧ spv - pvv < db
      · simp only [if_pos hdb]
      · simp only [if_neg hdb, divq, if_neg hne]
  · dsimp only [run_pid, run_pid_checked]
    simp only [if_neg hdt0, if_neg hrate, eq_self_iff_true, if_true]

/-- Claim C10 (confirmed): all three constructors initialize `lman_on` to
`true` — including the full constructor with manual mode disabled — so
the first effective automatic evaluation of a freshly constructed
controller behaves exactly as if its integral term had been pre-seeded
with the initial last-output value `0` (bumpless-transfer seeding). -/
theorem ctors_init_lman_on (a : ℕ) (b c : ℚ)
    (kpv kiv kdv dbv pvllv pvhlv spllv sphlv collv cohlv : ℚ)
    (db_onv man_onv : Bool) (dtminv : ℕ)
    (pvv spv : ℚ) (tbv : Option ℚ) (t : ℕ)
    (hdt0 : dtminv ≠ 0) (hdt : ¬ sub64 t 0 < dtminv) :
    (base_pid_default a b c).lman_on = true ∧
    (base_pid_min a b c).lman_on = true ∧
    (base_pid_full kpv kiv kdv dbv pvllv pvhlv spllv sphlv collv cohlv
      db_onv man_onv dtminv a b c).lman_on = true ∧
    run_pid (base_pid_full kpv kiv kdv dbv pvllv pvhlv spllv sphlv collv cohlv
        db_onv false dtminv a b c) ⟨some pvv, some spv, tbv, true⟩ t =
      run_pid { base_pid_full kpv kiv kdv dbv pvllv pvhlv spllv sphlv collv cohlv
          db_onv false dtminv a b c with lman_on := false, Iterm := 0 }
        ⟨some pvv, some spv, tbv, true⟩ t := by
  refine ⟨rfl, rfl, rfl, ?_⟩
  exact run_pid_bumpless_eq
    (base_pid_full kpv kiv kdv dbv pvllv pvhlv spllv sphlv collv cohlv
      db_onv false dtminv a b c) pvv spv tbv t hdt0 hdt rfl rfl

/-- Witness for C10 at concrete constructor arguments. -/
theorem ctors_init_lman_on_witness :
    (base_pid_default 0 0 0).lman_on = true ∧
    (base_pid_min 0 0 0).lman_on = true ∧
    (base_pid_full 1 1 1 0 (-1000) 1000 (-1000) 1000 (-10) 10
      false true 1 0 0 0).lman_on = true ∧
    run_pid (base_pid_full 1 1 1 0 (-1000) 1000 (-1000) 1000 (-10) 10
        false false 1 0 0 0) ⟨some 0, some 1, none, true⟩ 20 =
      run_pid { base_pid_full 1 1 1 0 (-1000) 1000 (-1000) 1000 (-10) 10
          false false 1 0 0 0 with lman_on := false, Iterm := 0 }
        ⟨some 0, some 1, none, true⟩ 20 :=
  ctors_init_lman_on 0 0 0 1 1 1 0 (-1000) 1000 (-1000) 1000 (-10) 10
    false true 1 0 1 none 20 (by decide) (by decide)
